import Mathlib

/-!
Shallow embedding of the URL-shortener backend's click-analytics core.

The embedded code lives in the backend routes and libraries:
* `lib/dates.ts` (`normalizeRange`),
* `lib/slug.ts` (`randomSlug`, `BASE62_CHARS`),
* `routes/links.ts` (`ensureLinkExists`, the POST create handler with its
  retry loop, the analytics `summary` and `daily` handlers),
* `routes/redirect.ts` (the `GET /r/:slug` handler),
* `middleware/error.ts` (`errorHandler`).

Modelling conventions:
* Timestamps and `Date` values are integers counting milliseconds since the
  Unix epoch (the value JavaScript's `Date.getTime()` exposes and the value
  Prisma stores for SQLite `DATETIME` columns).
* The two Prisma tables are lists of records; `prisma.link.create` is list
  append, and the `P2002` unique-constraint violation on `slug` fires exactly
  when some stored link already carries the candidate slug.
* Handlers are pure functions of the store, the request data, the current
  time, and the fresh ids / random bytes the runtime would supply.
* Fallible handler code returns `Except ThrownError`, mirroring `throw` /
  `next(error)` feeding the Express error middleware.
-/

/-- Row of the `Link` table (`prisma/migrations/.../migration.sql`). -/
structure Link where
  id : String
  slug : String
  targetUrl : String
  createdAt : Int
  deriving Repr, DecidableEq

/-- Row of the `Click` table: `ts_utc` is the `tsUtc` millisecond timestamp. -/
structure ClickEvent where
  id : String
  linkId : String
  tsUtc : Int
  userAgent : String
  deriving Repr, DecidableEq

/-- The durable store: the two relations the backend reads and writes. -/
structure Store where
  links : List Link
  clicks : List ClickEvent
  deriving Repr, DecidableEq

/-- Value thrown by backend code (`middleware/error.ts` interface
`ErrorWithStatus`): an optional HTTP status, an optional machine-readable
code, and the `Error` message.  The `details` payload carried by validation
errors is not modelled; no claim concerns it. -/
structure ThrownError where
  status : Option Nat
  code : Option String
  message : String
  deriving Repr, DecidableEq

/-- JSON error envelope produced by the error middleware. -/
structure ErrorResponse where
  status : Nat
  code : String
  message : String
  deriving Repr, DecidableEq

/-- Embedding of `errorHandler` (`middleware/error.ts`): status defaults to
500, code defaults to `"INTERNAL"`, message defaults to `"Unexpected error"`
(`err.message || ...` treats the empty string as absent). -/
def errorHandler (err : ThrownError) : ErrorResponse :=
  { status := err.status.getD 500
    code := err.code.getD "INTERNAL"
    message := if err.message = "" then "Unexpected error" else err.message }

/-- The object thrown by `ensureLinkExists` in `routes/links.ts`. -/
def notFoundError : ThrownError :=
  { status := some 404, code := some "NOT_FOUND", message := "Link not found" }

/-- The plain `Error` thrown by `normalizeRange` (`lib/dates.ts`) when
`fromDate > toDate`: a bare JS `Error` carries no `status` and no `code`. -/
def rangeOrderError : ThrownError :=
  { status := none, code := none, message := "From date cannot be after to date" }

/-- Milliseconds in one UTC day. -/
def msPerDay : Int := 86400000

/-- Start of the UTC calendar day containing instant `t`, in ms.  Division
here is `Int.ediv`, which for the positive divisor `msPerDay` is floor
division — how JavaScript's UTC calendar splits the timeline into days. -/
def startOfUtcDay (t : Int) : Int := msPerDay * (t / msPerDay)

/-- Embedding of `normalizeRange` (`lib/dates.ts`).  `fromMs?`/`toMs?` are the
parsed instants of the optional ISO strings (parsing/validation happens
upstream in `parseDateRange`).  The `Date` mutations are modelled at the
millisecond level:
* `defaultTo.setUTCHours(23, 59, 59, 999)` keeps the UTC day of `now` and sets
  the time-of-day to its last millisecond: `now - now.emod msPerDay + 86399999`;
* `defaultFrom.setUTCDate(defaultFrom.getUTCDate() - 30)` re-runs ECMA-262
  `MakeDay` on the same year/month with the day-of-month lowered by 30, which
  normalizes out-of-range day numbers and therefore shifts the instant by
  exactly 30 UTC days; the following `setUTCHours(0, 0, 0, 0)` truncates to
  the start of that UTC day.  (`%` is `Int.emod`, nonnegative for the
  positive modulus `msPerDay`, so subtracting it truncates downward.)
The function throws when `fromDate > toDate` and otherwise returns the pair
unchanged (the source then renders both as ISO strings). -/
def normalizeRange (now : Int) (fromMs? toMs? : Option Int) :
    Except ThrownError (Int × Int) :=
  let defaultTo := now - now % msPerDay + 86399999
  let defaultFrom := (now - 30 * msPerDay) - (now - 30 * msPerDay) % msPerDay
  let fromDate := fromMs?.getD defaultFrom
  let toDate := toMs?.getD defaultTo
  if fromDate > toDate then Except.error rangeOrderError
  else Except.ok (fromDate, toDate)

/-- Embedding of `ensureLinkExists` (`routes/links.ts`):
`prisma.link.findUnique({ where: { id } })`, throwing the 404 object when no
link with that id exists. -/
def ensureLinkExists (st : Store) (id : String) : Except ThrownError Unit :=
  match st.links.find? (fun l => l.id == id) with
  | none => Except.error notFoundError
  | some _ => Except.ok ()

/-- The `where` clause shared by both analytics queries: clicks of the link
with `tsUtc` in the inclusive window (`gte`/`lte` in the summary handler,
`BETWEEN` in the daily handler's SQL). -/
def inRangeClicks (st : Store) (linkId : String) (fromMs toMs : Int) :
    List ClickEvent :=
  st.clicks.filter fun c =>
    c.linkId == linkId && decide (fromMs ≤ c.tsUtc) && decide (c.tsUtc ≤ toMs)

/-- Embedding of `prisma.click.count` in the summary handler. -/
def countClicks (st : Store) (linkId : String) (fromMs toMs : Int) : Nat :=
  (inRangeClicks st linkId fromMs toMs).length

/-- UTC calendar day of a click, as a day number since the epoch: the SQL
`date(ts_utc/1000, 'unixepoch')` first truncates ms to seconds with SQLite's
truncating integer division (`Int.tdiv`) and then takes the UTC calendar date
of that second, i.e. the floor of the seconds over 86400 (`Int.fdiv`).  Day
numbers represent the `YYYY-MM-DD` strings bijectively and in the same order. -/
def dayOf (ts : Int) : Int := (ts.tdiv 1000).fdiv 86400

/-- Embedding of the raw aggregation query of the daily handler
(`routes/links.ts`): filter the link's clicks to the inclusive window, group
them by UTC calendar day, and emit one `(day, COUNT(*))` row per distinct day
in ascending day order.  `ORDER BY` is modelled by sorting the distinct keys. -/
def dailyRows (st : Store) (linkId : String) (fromMs toMs : Int) :
    List (Int × Nat) :=
  let cs := inRangeClicks st linkId fromMs toMs
  let days := List.insertionSort (· ≤ ·) (cs.map (fun c => dayOf c.tsUtc)).dedup
  days.map fun d => (d, (cs.filter (fun c => dayOf c.tsUtc == d)).length)

/-- Embedding of the `GET /:id/analytics/summary` handler: ensure the link
exists, normalize the range, count clicks in the window, respond `{ total }`. -/
def summaryHandler (st : Store) (id : String) (fromMs? toMs? : Option Int)
    (now : Int) : Except ThrownError Nat := do
  let _ ← ensureLinkExists st id
  let r ← normalizeRange now fromMs? toMs?
  pure (countClicks st id r.1 r.2)

/-- Embedding of the `GET /:id/analytics/daily` handler: ensure the link
exists, normalize the range, return the grouped daily rows. -/
def dailyHandler (st : Store) (id : String) (fromMs? toMs? : Option Int)
    (now : Int) : Except ThrownError (List (Int × Nat)) := do
  let _ ← ensureLinkExists st id
  let r ← normalizeRange now fromMs? toMs?
  pure (dailyRows st id r.1 r.2)

/-- The Base62 alphabet of `lib/slug.ts`. -/
def BASE62_CHARS : String :=
  "0123456789ABCDEFGHIJKLMNOPQRSTUVWXYZabcdefghijklmnopqrstuvwxyz"

/-- Embedding of `randomSlug` (`lib/slug.ts`).  `randomBytes i` is the `i`-th
byte drawn from `crypto.randomBytes(len)`; character `i` of the result is
`BASE62_CHARS[randomBytes i % BASE62_CHARS.length]`.  The list lookup uses a
fallback character, but the index `_ % 62` is always in range.  The source's
default length is 7. -/
def randomSlug (randomBytes : Nat → Nat) (len : Nat := 7) : String :=
  String.mk <| (List.range len).map fun i =>
    BASE62_CHARS.toList.getD (randomBytes i % BASE62_CHARS.length) '?'

/-- True when no stored link owns `slug`, i.e. when `prisma.link.create` with
this slug commits instead of raising `P2002` on the `Link_slug_key` unique
index. -/
def slugFree (st : Store) (slug : String) : Bool :=
  st.links.all fun l => l.slug != slug

/-- Effect of a committed `prisma.link.create`: one appended row. -/
def insertLink (st : Store) (link : Link) : Store :=
  { st with links := st.links ++ [link] }

/-- Outcome of the POST create handler, keeping only the branches the source
distinguishes: 201 with the created link, 409 `SLUG_TAKEN`, 500 `INTERNAL`. -/
inductive CreateOutcome where
  | created (link : Link)
  | slugTaken
  | internalExhausted
  deriving Repr, DecidableEq

/-- HTTP status the create handler responds with (`res.status(...)`). -/
def createHttpStatus : CreateOutcome → Nat
  | CreateOutcome.created _ => 201
  | CreateOutcome.slugTaken => 409
  | CreateOutcome.internalExhausted => 500

/-- Error code in the create handler's JSON error envelope, if any. -/
def createErrorCode : CreateOutcome → Option String
  | CreateOutcome.created _ => none
  | CreateOutcome.slugTaken => some "SLUG_TAKEN"
  | CreateOutcome.internalExhausted => some "INTERNAL"

/-- The `maxRetries` constant of the create handler. -/
def maxRetries : Nat := 3

/-- Embedding of the create handler's `while (retries <= maxRetries)` loop
(`routes/links.ts`).  `gen k` is the slug produced by the `k`-th call of
`randomSlug` in this request (call 0 made before the loop, call `k` by the
`k`-th retry).  `attempt` counts calls already made, `budget` is
`maxRetries - retries`; each iteration commits the insert when the slug is
free, answers 409 when the caller supplied the slug, retries with a fresh
generated slug while budget remains, and otherwise answers 500.  A failed
insert leaves the store untouched. -/
def createLoop (st : Store) (targetUrl newId : String) (createdAt : Int)
    (gen : Nat → String) (wasSlugProvided : Bool) (slug : String)
    (attempt budget : Nat) : CreateOutcome × Store :=
  if slugFree st slug then
    let link : Link :=
      { id := newId, slug := slug, targetUrl := targetUrl, createdAt := createdAt }
    (CreateOutcome.created link, insertLink st link)
  else if wasSlugProvided then
    (CreateOutcome.slugTaken, st)
  else
    match budget with
    | 0 => (CreateOutcome.internalExhausted, st)
    | b + 1 =>
        createLoop st targetUrl newId createdAt gen wasSlugProvided
          (gen (attempt + 1)) (attempt + 1) b

/-- Embedding of the POST `/api/v1/links` handler after validation: start from
the user slug when supplied (`userSlug || randomSlug()`), else from the first
generated slug, with the full retry budget. -/
def createHandler (st : Store) (targetUrl : String) (userSlug : Option String)
    (gen : Nat → String) (newId : String) (createdAt : Int) :
    CreateOutcome × Store :=
  createLoop st targetUrl newId createdAt gen userSlug.isSome
    (userSlug.getD (gen 0)) 0 maxRetries

/-- Response of the `GET /r/:slug` handler (`routes/redirect.ts`). -/
inductive RedirectResult where
  | notFound
  | redirectTo (location : String)
  deriving Repr, DecidableEq

/-- HTTP status of a redirect-handler response: 404 plain text, or the 302. -/
def redirectStatus : RedirectResult → Nat
  | RedirectResult.notFound => 404
  | RedirectResult.redirectTo _ => 302

/-- Embedding of the `GET /r/:slug` handler: look the slug up; on a miss
answer 404 without touching the click store; on a hit append exactly one click
(`userAgent` from the request header, `?? ''` when absent, timestamp now) and
then answer a 302 to the stored target URL. -/
def redirectHandler (st : Store) (slug : String) (userAgent? : Option String)
    (newClickId : String) (now : Int) : RedirectResult × Store :=
  match st.links.find? (fun l => l.slug == slug) with
  | none => (RedirectResult.notFound, st)
  | some link =>
      let click : ClickEvent :=
        { id := newClickId, linkId := link.id, tsUtc := now
          userAgent := userAgent?.getD "" }
      (RedirectResult.redirectTo link.targetUrl,
       { st with clicks := st.clicks ++ [click] })

/-! ## Helper lemmas shared by several verification results -/

/-- Membership in the filtered click window, unfolded to propositions. -/
theorem inRangeClicks_mem (st : Store) (linkId : String) (fromMs toMs : Int)
    (c : ClickEvent) :
    c ∈ inRangeClicks st linkId fromMs toMs ↔
      c ∈ st.clicks ∧ c.linkId = linkId ∧ fromMs ≤ c.tsUtc ∧ c.tsUtc ≤ toMs := by
  simp [inRangeClicks, List.mem_filter, and_assoc]

/-- Splitting a list by a Boolean predicate preserves its length. -/
theorem length_filter_add_not {α : Type} (p : α → Bool) (l : List α) :
    (l.filter p).length + (l.filter fun a => !(p a)).length = l.length := by
  induction l with
  | nil => simp
  | cons a l ih =>
      cases h : p a <;> simp [List.filter_cons, h] <;> omega

/-- Grouping a list by key values partitions it: summing the sizes of the
fibers over a duplicate-free list of keys covering every element recovers the
length of the list. -/
theorem sum_map_filter_length {α κ : Type} [DecidableEq κ] (key : α → κ) :
    ∀ (ds : List κ) (cs : List α), ds.Nodup → (∀ c ∈ cs, key c ∈ ds) →
      ((ds.map fun d => (cs.filter fun c => key c == d).length).sum = cs.length) := by
  intro ds
  induction ds with
  | nil =>
      intro cs _ hcov
      cases cs with
      | nil => simp
      | cons c cs => exact absurd (hcov c (by simp)) (by simp)
  | cons d ds ih =>
      intro cs hnd hcov
      have hd : d ∉ ds := (List.nodup_cons.mp hnd).1
      have hnd' : ds.Nodup := (List.nodup_cons.mp hnd).2
      have hcov' : ∀ c ∈ cs.filter fun c => !(key c == d), key c ∈ ds := by
        intro c hc
        have hc' := List.mem_filter.mp hc
        have hkd : key c ≠ d := by
          have := hc'.2
          simp at this
          exact this
        have := hcov c hc'.1
        simp at this
        rcases this with h | h
        · exact absurd h hkd
        · exact h
      have hfe : ∀ d' ∈ ds,
          (cs.filter fun c => key c == d') =
          ((cs.filter fun c => !(key c == d)).filter fun c => key c == d') := by
        intro d' hd'
        rw [List.filter_filter]
        apply List.filter_congr
        intro c _
        cases h : (key c == d') with
        | false => simp
        | true =>
            have : key c = d' := by simpa using h
            have : ¬ (key c == d) = true := by
              simp [this]
              intro hcon
              exact hd (hcon ▸ hd')
            simp_all
      have hmapeq : (ds.map fun d' => (cs.filter fun c => key c == d').length) =
          (ds.map fun d' =>
            ((cs.filter fun c => !(key c == d)).filter fun c => key c == d').length) := by
        apply List.map_congr_left
        intro d' hd'
        rw [hfe d' hd']
      have hsplit := length_filter_add_not (fun c => key c == d) cs
      have hih := ih (cs.filter fun c => !(key c == d)) hnd' hcov'
      simp only [List.map_cons, List.sum_cons, hmapeq, hih]
      omega

/-- Counts of a link's daily rows sum to the window's click count. -/
theorem sum_dailyRows (st : Store) (linkId : String) (fromMs toMs : Int) :
    ((dailyRows st linkId fromMs toMs).map Prod.snd).sum =
      countClicks st linkId fromMs toMs := by
  have hmm : (dailyRows st linkId fromMs toMs).map Prod.snd =
      (List.insertionSort (· ≤ ·)
        ((inRangeClicks st linkId fromMs toMs).map fun c => dayOf c.tsUtc).dedup).map
        fun d => ((inRangeClicks st linkId fromMs toMs).filter
                    fun c => dayOf c.tsUtc == d).length := by
    rw [dailyRows, List.map_map]
    rfl
  rw [hmm]
  have hperm := (List.perm_insertionSort (· ≤ ·)
      ((inRangeClicks st linkId fromMs toMs).map fun c => dayOf c.tsUtc).dedup).map
      fun d => ((inRangeClicks st linkId fromMs toMs).filter
                  fun c => dayOf c.tsUtc == d).length
  rw [hperm.sum_eq]
  rw [countClicks]
  exact sum_map_filter_length (fun c : ClickEvent => dayOf c.tsUtc) _ _
    (List.nodup_dedup _)
    (fun c hc => List.mem_dedup.mpr (List.mem_map_of_mem _ hc))

/-- An empty click window produces no daily rows. -/
theorem dailyRows_eq_nil (st : Store) (linkId : String) (fromMs toMs : Int)
    (h : countClicks st linkId fromMs toMs = 0) :
    dailyRows st linkId fromMs toMs = [] := by
  have hnil : inRangeClicks st linkId fromMs toMs = [] :=
    List.length_eq_zero.mp h
  simp [dailyRows, hnil, List.insertionSort]

/-! ## Claim theorems -/

/-- C7: when `normalize` is called with both boundaries omitted, the returned
`to` is the last millisecond (23:59:59.999) of the UTC day containing `now`,
the returned `from` is the start (00:00:00.000) of the UTC day containing the
instant 30 days before `now`, and `from ≤ to` holds. -/
theorem normalizeRange_default_range (now : Int) :
    normalizeRange now none none =
      Except.ok (startOfUtcDay (now - 30 * msPerDay), startOfUtcDay now + 86399999) ∧
    startOfUtcDay (now - 30 * msPerDay) ≤ startOfUtcDay now + 86399999 := by
  have h3 : startOfUtcDay (now - 30 * msPerDay) ≤ startOfUtcDay now + 86399999 := by
    simp only [startOfUtcDay, msPerDay]; omega
  refine ⟨?_, h3⟩
  simp only [normalizeRange, Option.getD_none]
  rw [if_neg (by simp only [msPerDay]; omega)]
  have h1 : (now - 30 * msPerDay) - (now - 30 * msPerDay) % msPerDay =
      startOfUtcDay (now - 30 * msPerDay) := by
    simp only [startOfUtcDay, msPerDay]; omega
  have h2 : now - now % msPerDay + 86399999 = startOfUtcDay now + 86399999 := by
    simp only [startOfUtcDay, msPerDay]; omega
  rw [h1, h2]

/-- C5 (amended): when the resolved boundaries satisfy `from > to`, range
normalization fails with the explicit range-order error — surfaced by the
error middleware as status 500 with the generic code `INTERNAL`, since the
thrown `Error` carries no kind of its own — and when `from ≤ to` (equality
included) the boundaries are returned unchanged, never swapped or clamped. -/
theorem normalizeRange_order_check (now fromMs toMs : Int) :
    (toMs < fromMs →
      normalizeRange now (some fromMs) (some toMs) = Except.error rangeOrderError ∧
      errorHandler rangeOrderError =
        { status := 500, code := "INTERNAL",
          message := "From date cannot be after to date" }) ∧
    (fromMs ≤ toMs →
      normalizeRange now (some fromMs) (some toMs) = Except.ok (fromMs, toMs)) := by
  constructor
  · intro h
    refine ⟨?_, by decide⟩
    simp only [normalizeRange, Option.getD_some]
    rw [if_pos h]
  · intro h
    simp only [normalizeRange, Option.getD_some]
    rw [if_neg (not_lt.mpr h)]

/-- C5 counterexample: at the concrete boundaries `from = 1 ms`, `to = 0 ms`
the normalization error is a plain error with no kind field (`code = none`),
and the error middleware surfaces it as the generic internal envelope
(status 500, code `"INTERNAL"`) — not as a distinct `InvalidRange` kind. -/
theorem normalizeRange_no_invalidRange_kind :
    normalizeRange 0 (some 1) (some 0) = Except.error rangeOrderError ∧
    rangeOrderError.code = none ∧
    (errorHandler rangeOrderError).status = 500 ∧
    (errorHandler rangeOrderError).code = "INTERNAL" ∧
    (errorHandler rangeOrderError).code ≠ "INVALID_RANGE" := by
  refine ⟨?_, by decide, by decide, by decide, by decide⟩
  simp only [normalizeRange, Option.getD_some]
  rw [if_pos (by norm_num)]

/-- C5 witness: a concrete reversed range is rejected and a concrete
degenerate range `from = to` is accepted unchanged. -/
theorem normalizeRange_order_check_witness :
    normalizeRange 0 (some 5) (some 3) = Except.error rangeOrderError ∧
    normalizeRange 0 (some 4) (some 4) = Except.ok (4, 4) :=
  ⟨((normalizeRange_order_check 0 5 3).1 (by norm_num)).1,
   (normalizeRange_order_check 0 4 4).2 (le_refl 4)⟩

/-- C8: for every requested length the slug generator returns a string of
exactly that many characters; character `i` is the alphabet entry selected by
`byte i mod 62`; every character of the result belongs to the 62-symbol
alphabet, which consists exactly of digits, uppercase and lowercase letters.
The function is total — it has no error conditions. -/
theorem randomSlug_spec (randomBytes : Nat → Nat) (len : Nat) :
    (randomSlug randomBytes len).length = len ∧
    (∀ i, i < len →
      (randomSlug randomBytes len).toList.getD i '?' =
        BASE62_CHARS.toList.getD (randomBytes i % 62) '?') ∧
    (∀ c ∈ (randomSlug randomBytes len).toList, c ∈ BASE62_CHARS.toList) ∧
    BASE62_CHARS.length = 62 ∧
    (∀ c ∈ BASE62_CHARS.toList,
      c.isDigit = true ∨ c.isUpper = true ∨ c.isLower = true) := by
  have hlen62 : BASE62_CHARS.length = 62 := by decide
  have htl : BASE62_CHARS.toList.length = 62 := by decide
  refine ⟨?_, ?_, ?_, hlen62, by decide⟩
  · rw [randomSlug]
    show ((List.range len).map fun j =>
        BASE62_CHARS.toList.getD (randomBytes j % BASE62_CHARS.length) '?').length = len
    simp
  · intro i hi
    have hlt : i < ((List.range len).map fun j =>
        BASE62_CHARS.toList.getD (randomBytes j % BASE62_CHARS.length) '?').length := by
      simpa using hi
    rw [randomSlug]
    show (((List.range len).map fun j =>
        BASE62_CHARS.toList.getD (randomBytes j % BASE62_CHARS.length) '?').getD i '?') = _
    rw [List.getD_eq_getElem _ _ hlt]
    simp [hlen62]
  · intro c hc
    rw [randomSlug] at hc
    have hc' : c ∈ (List.range len).map fun j =>
        BASE62_CHARS.toList.getD (randomBytes j % BASE62_CHARS.length) '?' := hc
    obtain ⟨j, _, rfl⟩ := List.mem_map.mp hc'
    have hidx : randomBytes j % BASE62_CHARS.length < BASE62_CHARS.toList.length := by
      rw [htl, hlen62]
      exact Nat.mod_lt _ (by norm_num)
    rw [List.getD_eq_getElem _ _ hidx]
    exact List.getElem_mem hidx

/-- C8 witness: a concrete byte stream of length 7 yields a 7-character slug
whose third character is the alphabet entry at index `2 * 63 % 62 = 2`. -/
theorem randomSlug_spec_witness :
    (randomSlug (fun i => i * 63) 7).length = 7 ∧
    (randomSlug (fun i => i * 63) 7).toList.getD 2 '?' =
      BASE62_CHARS.toList.getD (2 * 63 % 62) '?' :=
  ⟨(randomSlug_spec (fun i => i * 63) 7).1,
   (randomSlug_spec (fun i => i * 63) 7).2.1 2 (by norm_num)⟩

/-- C1: for every link and every normalized inclusive range, the daily rows
pair each listed day with the number of the link's clicks whose UTC calendar
day is that day and whose timestamp lies in `[from, to]`; every listed day is
the UTC day of at least one in-range click (no zero-filled gap days); every
in-range click's day is listed; and the rows are strictly ascending by day. -/
theorem daily_buckets (st : Store) (linkId : String) (fromMs toMs : Int) :
    (∀ p ∈ dailyRows st linkId fromMs toMs,
      (∃ c ∈ st.clicks, c.linkId = linkId ∧ fromMs ≤ c.tsUtc ∧ c.tsUtc ≤ toMs ∧
         dayOf c.tsUtc = p.1) ∧
      p.2 = ((inRangeClicks st linkId fromMs toMs).filter
               (fun c => dayOf c.tsUtc == p.1)).length) ∧
    (∀ c ∈ st.clicks, c.linkId = linkId → fromMs ≤ c.tsUtc → c.tsUtc ≤ toMs →
      ∃ p ∈ dailyRows st linkId fromMs toMs, p.1 = dayOf c.tsUtc) ∧
    List.Pairwise (fun p q : Int × Nat => p.1 < q.1)
      (dailyRows st linkId fromMs toMs) := by
  have hrows : dailyRows st linkId fromMs toMs =
      (List.insertionSort (· ≤ ·)
        ((inRangeClicks st linkId fromMs toMs).map fun c => dayOf c.tsUtc).dedup).map
        fun d => (d, ((inRangeClicks st linkId fromMs toMs).filter
                        fun c => dayOf c.tsUtc == d).length) := rfl
  refine ⟨?_, ?_, ?_⟩
  · intro p hp
    rw [hrows] at hp
    obtain ⟨d, hd, rfl⟩ := List.mem_map.mp hp
    have hd0 : d ∈ ((inRangeClicks st linkId fromMs toMs).map
        fun c => dayOf c.tsUtc).dedup := (List.mem_insertionSort _).mp hd
    obtain ⟨c, hcmem, hcd⟩ := List.mem_map.mp (List.mem_dedup.mp hd0)
    have h' := (inRangeClicks_mem st linkId fromMs toMs c).mp hcmem
    exact ⟨⟨c, h'.1, h'.2.1, h'.2.2.1, h'.2.2.2, hcd⟩, rfl⟩
  · intro c hc hlid hf ht
    have hcs : c ∈ inRangeClicks st linkId fromMs toMs :=
      (inRangeClicks_mem st linkId fromMs toMs c).mpr ⟨hc, hlid, hf, ht⟩
    have hd0 : dayOf c.tsUtc ∈ ((inRangeClicks st linkId fromMs toMs).map
        fun c => dayOf c.tsUtc).dedup :=
      List.mem_dedup.mpr (List.mem_map_of_mem _ hcs)
    have hd : dayOf c.tsUtc ∈ List.insertionSort (· ≤ ·)
        ((inRangeClicks st linkId fromMs toMs).map fun c => dayOf c.tsUtc).dedup :=
      (List.mem_insertionSort _).mpr hd0
    refine ⟨(dayOf c.tsUtc,
      ((inRangeClicks st linkId fromMs toMs).filter
        fun c' => dayOf c'.tsUtc == dayOf c.tsUtc).length), ?_, rfl⟩
    rw [hrows]
    exact List.mem_map_of_mem _ hd
  · rw [hrows, List.pairwise_map]
    have hsorted : List.Sorted (· ≤ ·) (List.insertionSort (· ≤ ·)
        ((inRangeClicks st linkId fromMs toMs).map fun c => dayOf c.tsUtc).dedup) :=
      List.sorted_insertionSort _ _
    have hnd : (List.insertionSort (· ≤ ·)
        ((inRangeClicks st linkId fromMs toMs).map fun c => dayOf c.tsUtc).dedup).Nodup :=
      (List.perm_insertionSort _ _).nodup_iff.mpr (List.nodup_dedup _)
    exact hsorted.lt_of_le hnd

/-- C1 witness: in a concrete store with a single click at 5000 ms, the daily
rows for the first UTC day contain a row for that click's day. -/
theorem daily_buckets_witness :
    ∃ p ∈ dailyRows
        { links := [{ id := "L1", slug := "s", targetUrl := "https://e",
                      createdAt := 0 }],
          clicks := [{ id := "c1", linkId := "L1", tsUtc := 5000,
                       userAgent := "ua" }] }
        "L1" 0 86400000,
      p.1 = dayOf 5000 :=
  (daily_buckets
      { links := [{ id := "L1", slug := "s", targetUrl := "https://e",
                    createdAt := 0 }],
        clicks := [{ id := "c1", linkId := "L1", tsUtc := 5000,
                     userAgent := "ua" }] }
      "L1" 0 86400000).2.1
    { id := "c1", linkId := "L1", tsUtc := 5000, userAgent := "ua" }
    (by simp) rfl (by norm_num) (by norm_num)

/-- C9: whenever the summary and daily handlers both succeed for the same
link, query parameters and current time, the counts of the daily rows sum to
the summary total — both aggregate the same inclusive window of the same
click store. -/
theorem daily_sum_matches_summary (st : Store) (id : String)
    (fromMs? toMs? : Option Int) (now : Int) (total : Nat)
    (rows : List (Int × Nat)) :
    summaryHandler st id fromMs? toMs? now = Except.ok total →
    dailyHandler st id fromMs? toMs? now = Except.ok rows →
    (rows.map Prod.snd).sum = total := by
  intro hs hd
  cases hfind : st.links.find? (fun l => l.id == id) with
  | none =>
      rw [summaryHandler] at hs
      simp [ensureLinkExists, hfind, Except.instMonad, Except.bind, Except.map,
        bind, Functor.map] at hs
  | some link =>
      cases hnorm : normalizeRange now fromMs? toMs? with
      | error e =>
          rw [summaryHandler] at hs
          simp [ensureLinkExists, hfind, hnorm, Except.instMonad, Except.bind,
            Except.map, bind, Functor.map] at hs
      | ok r =>
          rw [summaryHandler] at hs
          rw [dailyHandler] at hd
          simp [ensureLinkExists, hfind, hnorm, Except.instMonad, Except.bind,
            Except.map, bind, Functor.map, Except.pure, Pure.pure] at hs hd
          rw [← hs, ← hd]
          exact sum_dailyRows st id r.1 r.2

/-- C9 witness: for a concrete store with two same-day clicks both handlers
succeed and the single daily count sums to the summary total 2. -/
theorem daily_sum_matches_summary_witness :
    (([(0, 2)] : List (Int × Nat)).map Prod.snd).sum = 2 :=
  daily_sum_matches_summary
    { links := [{ id := "L1", slug := "s", targetUrl := "https://e",
                  createdAt := 0 }],
      clicks := [{ id := "c1", linkId := "L1", tsUtc := 1000, userAgent := "a" },
                 { id := "c2", linkId := "L1", tsUtc := 2000, userAgent := "b" }] }
    "L1" (some 0) (some 86400000) 0 2 [(0, 2)] rfl rfl

/-- C2: when no stored link has the requested id, both analytics handlers
fail with the 404 `NOT_FOUND` error regardless of the click store or the
query range; when the link exists, the range normalizes, and the link has
zero clicks in the window, summary answers `{ total := 0 }` and daily answers
the empty sequence — never an error. -/
theorem analytics_unknown_vs_zero_clicks (st : Store) (id : String)
    (fromMs? toMs? : Option Int) (now : Int) :
    (st.links.find? (fun l => l.id == id) = none →
      summaryHandler st id fromMs? toMs? now = Except.error notFoundError ∧
      dailyHandler st id fromMs? toMs? now = Except.error notFoundError ∧
      errorHandler notFoundError =
        { status := 404, code := "NOT_FOUND", message := "Link not found" }) ∧
    (∀ link, st.links.find? (fun l => l.id == id) = some link →
      ∀ fromMs toMs, normalizeRange now fromMs? toMs? = Except.ok (fromMs, toMs) →
        countClicks st id fromMs toMs = 0 →
        summaryHandler st id fromMs? toMs? now = Except.ok 0 ∧
        dailyHandler st id fromMs? toMs? now = Except.ok []) := by
  constructor
  · intro h
    refine ⟨?_, ?_, by decide⟩
    · rw [summaryHandler]
      simp [ensureLinkExists, h, Except.instMonad, Except.bind, Except.map,
        bind, Functor.map]
    · rw [dailyHandler]
      simp [ensureLinkExists, h, Except.instMonad, Except.bind, Except.map,
        bind, Functor.map]
  · intro link h fromMs toMs hnorm hzero
    constructor
    · rw [summaryHandler]
      simp [ensureLinkExists, h, hnorm, Except.instMonad, Except.bind, Except.map,
        bind, Functor.map, Except.pure, Pure.pure, hzero]
    · rw [dailyHandler]
      simp [ensureLinkExists, h, hnorm, Except.instMonad, Except.bind, Except.map,
        bind, Functor.map, Except.pure, Pure.pure,
        dailyRows_eq_nil st id fromMs toMs hzero]

/-- C2 witness: against a concrete one-link store, an unknown id yields the
404 error while the known id with no clicks yields `total = 0` and `[]`. -/
theorem analytics_unknown_vs_zero_clicks_witness :
    summaryHandler
      { links := [{ id := "L1", slug := "s", targetUrl := "https://e",
                    createdAt := 0 }], clicks := [] }
      "zz" none none 0 = Except.error notFoundError ∧
    summaryHandler
      { links := [{ id := "L1", slug := "s", targetUrl := "https://e",
                    createdAt := 0 }], clicks := [] }
      "L1" (some 0) (some 10) 0 = Except.ok 0 ∧
    dailyHandler
      { links := [{ id := "L1", slug := "s", targetUrl := "https://e",
                    createdAt := 0 }], clicks := [] }
      "L1" (some 0) (some 10) 0 = Except.ok [] :=
  ⟨((analytics_unknown_vs_zero_clicks
      { links := [{ id := "L1", slug := "s", targetUrl := "https://e",
                    createdAt := 0 }], clicks := [] }
      "zz" none none 0).1 rfl).1,
   ((analytics_unknown_vs_zero_clicks
      { links := [{ id := "L1", slug := "s", targetUrl := "https://e",
                    createdAt := 0 }], clicks := [] }
      "L1" (some 0) (some 10) 0).2
      { id := "L1", slug := "s", targetUrl := "https://e", createdAt := 0 }
      rfl 0 10 rfl rfl).1,
   ((analytics_unknown_vs_zero_clicks
      { links := [{ id := "L1", slug := "s", targetUrl := "https://e",
                    createdAt := 0 }], clicks := [] }
      "L1" (some 0) (some 10) 0).2
      { id := "L1", slug := "s", targetUrl := "https://e", createdAt := 0 }
      rfl 0 10 rfl rfl).2⟩

/-- C6: a click whose timestamp equals `from` exactly, or `to` exactly, lies
in the inclusive window, so the window count — which the summary handler
returns for the existing link — is at least one. -/
theorem summary_inclusive_bounds (st : Store) (id : String) (fromMs toMs now : Int)
    (c : ClickEvent) (hmem : c ∈ st.clicks) (hid : c.linkId = id)
    (hboundary : c.tsUtc = fromMs ∨ c.tsUtc = toMs) (hft : fromMs ≤ toMs) :
    c ∈ inRangeClicks st id fromMs toMs ∧
    1 ≤ countClicks st id fromMs toMs ∧
    (∀ link, st.links.find? (fun l => l.id == id) = some link →
      summaryHandler st id (some fromMs) (some toMs) now =
        Except.ok (countClicks st id fromMs toMs)) := by
  have hin : c ∈ inRangeClicks st id fromMs toMs := by
    refine (inRangeClicks_mem st id fromMs toMs c).mpr ⟨hmem, hid, ?_, ?_⟩
    · rcases hboundary with h | h <;> omega
    · rcases hboundary with h | h <;> omega
  refine ⟨hin, ?_, ?_⟩
  · exact List.length_pos_of_mem hin
  · intro link hlink
    have hnorm : normalizeRange now (some fromMs) (some toMs) =
        Except.ok (fromMs, toMs) := by
      simp only [normalizeRange, Option.getD_some]
      rw [if_neg (not_lt.mpr hft)]
    rw [summaryHandler]
    simp [ensureLinkExists, hlink, hnorm, Except.instMonad, Except.bind, Except.map,
      bind, Functor.map, Except.pure, Pure.pure]

/-- C6 witness: a concrete click timed exactly at `from = 100` is in the
window `[100, 200]` and the count is at least one. -/
theorem summary_inclusive_bounds_witness :
    ({ id := "c1", linkId := "L1", tsUtc := 100, userAgent := "u" } : ClickEvent) ∈
      inRangeClicks
        { links := [{ id := "L1", slug := "s", targetUrl := "https://e",
                      createdAt := 0 }],
          clicks := [{ id := "c1", linkId := "L1", tsUtc := 100,
                       userAgent := "u" }] }
        "L1" 100 200 ∧
    1 ≤ countClicks
        { links := [{ id := "L1", slug := "s", targetUrl := "https://e",
                      createdAt := 0 }],
          clicks := [{ id := "c1", linkId := "L1", tsUtc := 100,
                       userAgent := "u" }] }
        "L1" 100 200 :=
  have h := summary_inclusive_bounds
    { links := [{ id := "L1", slug := "s", targetUrl := "https://e",
                  createdAt := 0 }],
      clicks := [{ id := "c1", linkId := "L1", tsUtc := 100, userAgent := "u" }] }
    "L1" 100 200 0
    { id := "c1", linkId := "L1", tsUtc := 100, userAgent := "u" }
    (by simp) rfl (Or.inl rfl) (by norm_num)
  ⟨h.1, h.2.1⟩

/-- C3: for a create call without a supplied slug, the handler tries the
generated slugs in order: if the first `k ≤ 3` generator outputs collide and
output `k` is free, the call succeeds inserting exactly the `k`-th generated
slug (so two collisions followed by a success commit the third generated
slug); if all 4 attempts (1 initial + 3 retries) collide, the call fails with
the internal exhausted-retries error and the store is unchanged. -/
theorem create_generated_slug_retry (st : Store) (targetUrl newId : String)
    (createdAt : Int) (gen : Nat → String) :
    (∀ k, k ≤ maxRetries → (∀ j, j < k → slugFree st (gen j) = false) →
      slugFree st (gen k) = true →
      createHandler st targetUrl none gen newId createdAt =
        (CreateOutcome.created
           { id := newId, slug := gen k, targetUrl := targetUrl,
             createdAt := createdAt },
         insertLink st
           { id := newId, slug := gen k, targetUrl := targetUrl,
             createdAt := createdAt })) ∧
    ((∀ k, k ≤ maxRetries → slugFree st (gen k) = false) →
      createHandler st targetUrl none gen newId createdAt =
        (CreateOutcome.internalExhausted, st)) ∧
    createHttpStatus CreateOutcome.internalExhausted = 500 ∧
    createErrorCode CreateOutcome.internalExhausted = some "INTERNAL" := by
  refine ⟨?_, ?_, rfl, rfl⟩
  · intro k hk hprev hfree
    simp only [maxRetries] at hk
    interval_cases k
    · simp [createHandler, createLoop, maxRetries, hfree]
    · have h0 := hprev 0 (by norm_num)
      simp [createHandler, createLoop, maxRetries, h0, hfree]
    · have h0 := hprev 0 (by norm_num)
      have h1 := hprev 1 (by norm_num)
      simp [createHandler, createLoop, maxRetries, h0, h1, hfree]
    · have h0 := hprev 0 (by norm_num)
      have h1 := hprev 1 (by norm_num)
      have h2 := hprev 2 (by norm_num)
      simp [createHandler, createLoop, maxRetries, h0, h1, h2, hfree]
  · intro hall
    have h0 := hall 0 (by simp [maxRetries])
    have h1 := hall 1 (by simp [maxRetries])
    have h2 := hall 2 (by simp [maxRetries])
    have h3 := hall 3 (by simp [maxRetries])
    simp [createHandler, createLoop, maxRetries, h0, h1, h2, h3]

/-- C3 witness: with stored slugs "a" and "b" and a generator that produces
"a", "b", "c", ..., the create call without a slug succeeds on the third
generated slug "c". -/
theorem create_generated_slug_retry_witness :
    createHandler
      { links := [{ id := "L1", slug := "a", targetUrl := "https://e",
                    createdAt := 0 },
                  { id := "L2", slug := "b", targetUrl := "https://e",
                    createdAt := 0 }], clicks := [] }
      "https://t" none (fun k => if k == 0 then "a" else if k == 1 then "b" else "c")
      "L9" 7 =
      (CreateOutcome.created
         { id := "L9", slug := "c", targetUrl := "https://t", createdAt := 7 },
       insertLink
         { links := [{ id := "L1", slug := "a", targetUrl := "https://e",
                       createdAt := 0 },
                     { id := "L2", slug := "b", targetUrl := "https://e",
                       createdAt := 0 }], clicks := [] }
         { id := "L9", slug := "c", targetUrl := "https://t", createdAt := 7 }) :=
  (create_generated_slug_retry
      { links := [{ id := "L1", slug := "a", targetUrl := "https://e",
                    createdAt := 0 },
                  { id := "L2", slug := "b", targetUrl := "https://e",
                    createdAt := 0 }], clicks := [] }
      "https://t" "L9" 7
      (fun k => if k == 0 then "a" else if k == 1 then "b" else "c")).1
    2 (by norm_num [maxRetries]) (by decide) (by decide)

/-- C4: for a create call with a caller-supplied slug the generator is never
consulted (the outcome is identical for any two generators); a free slug is
inserted exactly as supplied; a taken slug produces the 409 `SLUG_TAKEN`
conflict — not a `VALIDATION_ERROR` — and leaves the store unchanged. -/
theorem create_supplied_slug (st : Store) (targetUrl slug newId : String)
    (createdAt : Int) (gen gen' : Nat → String) :
    (slugFree st slug = false →
      createHandler st targetUrl (some slug) gen newId createdAt =
        (CreateOutcome.slugTaken, st) ∧
      createHttpStatus CreateOutcome.slugTaken = 409 ∧
      createErrorCode CreateOutcome.slugTaken = some "SLUG_TAKEN" ∧
      createErrorCode CreateOutcome.slugTaken ≠ some "VALIDATION_ERROR") ∧
    (createHandler st targetUrl (some slug) gen newId createdAt =
      createHandler st targetUrl (some slug) gen' newId createdAt) ∧
    (slugFree st slug = true →
      createHandler st targetUrl (some slug) gen newId createdAt =
        (CreateOutcome.created
           { id := newId, slug := slug, targetUrl := targetUrl,
             createdAt := createdAt },
         insertLink st
           { id := newId, slug := slug, targetUrl := targetUrl,
             createdAt := createdAt })) := by
  refine ⟨?_, ?_, ?_⟩
  · intro h
    refine ⟨?_, rfl, rfl, by decide⟩
    simp [createHandler, createLoop, maxRetries, h]
  · cases h : slugFree st slug <;>
      simp [createHandler, createLoop, maxRetries, h]
  · intro h
    simp [createHandler, createLoop, maxRetries, h]

/-- C4 witness: supplying the already-stored slug "a" yields the conflict
outcome and an unchanged store. -/
theorem create_supplied_slug_witness :
    createHandler
      { links := [{ id := "L1", slug := "a", targetUrl := "https://e",
                    createdAt := 0 }], clicks := [] }
      "https://t" (some "a") (fun _ => "g") "L9" 7 =
      (CreateOutcome.slugTaken,
       { links := [{ id := "L1", slug := "a", targetUrl := "https://e",
                     createdAt := 0 }], clicks := [] }) :=
  ((create_supplied_slug
      { links := [{ id := "L1", slug := "a", targetUrl := "https://e",
                    createdAt := 0 }], clicks := [] }
      "https://t" "a" "L9" 7 (fun _ => "g") (fun _ => "g")).1 (by decide)).1

/-- C10: a redirect request whose slug matches no stored link answers 404 and
leaves the click store untouched; a matching request appends exactly one
click event carrying the link's id and the request's user-agent header (the
empty string when absent) and answers a 302 to the stored target URL. -/
theorem redirect_records_click (st : Store) (slug : String)
    (userAgent? : Option String) (newClickId : String) (now : Int) :
    ((∀ l ∈ st.links, l.slug ≠ slug) →
      redirectHandler st slug userAgent? newClickId now =
        (RedirectResult.notFound, st) ∧
      redirectStatus RedirectResult.notFound = 404) ∧
    (∀ link, st.links.find? (fun l => l.slug == slug) = some link →
      redirectHandler st slug userAgent? newClickId now =
        (RedirectResult.redirectTo link.targetUrl,
         { st with clicks := st.clicks ++
             [{ id := newClickId, linkId := link.id, tsUtc := now,
                userAgent := userAgent?.getD "" }] }) ∧
      redirectStatus (RedirectResult.redirectTo link.targetUrl) = 302) := by
  constructor
  · intro h
    have hfind : st.links.find? (fun l => l.slug == slug) = none := by
      apply List.find?_eq_none.mpr
      intro l hl
      simpa using h l hl
    exact ⟨by simp [redirectHandler, hfind], rfl⟩
  · intro link hlink
    exact ⟨by simp [redirectHandler, hlink], rfl⟩

/-- C10 witness: a hit on the concrete slug "s" appends one click with the
header's user agent and redirects 302 to the stored target. -/
theorem redirect_records_click_witness :
    redirectHandler
      { links := [{ id := "L1", slug := "s", targetUrl := "https://e",
                    createdAt := 0 }], clicks := [] }
      "s" (some "agent") "c9" 77 =
      (RedirectResult.redirectTo "https://e",
       { links := [{ id := "L1", slug := "s", targetUrl := "https://e",
                     createdAt := 0 }],
         clicks := [{ id := "c9", linkId := "L1", tsUtc := 77,
                      userAgent := "agent" }] }) :=
  ((redirect_records_click
      { links := [{ id := "L1", slug := "s", targetUrl := "https://e",
                    createdAt := 0 }], clicks := [] }
      "s" (some "agent") "c9" 77).2
    { id := "L1", slug := "s", targetUrl := "https://e", createdAt := 0 }
    rfl).1
